import Mathlib

set_option maxHeartbeats 1000000
set_option maxRecDepth 10000

/-
Formal model of an HTTP/SSE agent server (Express + beeai-framework) and its
tool adapters, with proofs about its streaming contract, configuration,
error handling and the reminder-capacity invariant.

The TypeScript sources are shallowly embedded: request handlers become pure
functions from the request data, the (nondeterministic) agent run and the
shared server state to an ordered log of response actions; the LLM calls made
by the ReminderTool become an oracle record holding the raw text each call
returns; the sqlite database becomes a row count together with a small
interpretation of the generated SQL statements; the JavaScript builtins the
code relies on (JSON.parse, JSON.stringify, the brace-matching regex,
String.prototype.trim/toLowerCase/includes) are modelled executably below.
-/

/-! ## String utilities (models of the JavaScript string builtins) -/

/-- Model of `String.prototype.toLowerCase` (ASCII range, as used here). -/
def lowerStr (s : String) : String := ⟨s.data.map Char.toLower⟩

/-- `charsStartWith pat cs` is true when `pat` is an initial segment of `cs`. -/
def charsStartWith : List Char → List Char → Bool
  | [], _ => true
  | _ :: _, [] => false
  | p :: ps, c :: cs => p == c && charsStartWith ps cs

/-- `charsContain pat cs` is true when `pat` occurs contiguously in `cs`. -/
def charsContain (pat : List Char) : List Char → Bool
  | [] => pat.isEmpty
  | c :: rest => charsStartWith pat (c :: rest) || charsContain pat rest

/-- Model of `String.prototype.includes`. -/
def strContains (s pat : String) : Bool := charsContain pat.data s.data

/-- Model of `String.prototype.startsWith`. -/
def strStartsWith (s pat : String) : Bool := charsStartWith pat.data s.data

/-- JavaScript whitespace characters relevant to `trim`. -/
def isWS (c : Char) : Bool := c == ' ' || c == '\t' || c == '\n' || c == '\r'

/-- Model of `String.prototype.trim`. -/
def trimStr (s : String) : String :=
  ⟨((s.data.dropWhile isWS).reverse.dropWhile isWS).reverse⟩

/-! ## A small JSON value model

`JsonVal` models the JavaScript values produced by `JSON.parse` on the
outputs this program actually parses (objects, arrays, strings, integers,
booleans, null).  Fractional numbers and `\uXXXX` string escapes are not
produced by any value this program round-trips, and are modelled as parse
failures. -/

inductive JsonVal where
  | jnull
  | jbool (b : Bool)
  | jnum (n : Int)
  | jstr (s : String)
  | jarr (xs : List JsonVal)
  | jobj (fields : List (String × JsonVal))
deriving Repr

/-- Lower-case hexadecimal digit, used by the string-escape model. -/
def hexDigit (n : Nat) : Char :=
  if n < 10 then Char.ofNat (48 + n) else Char.ofNat (97 + (n - 10))

/-- Model of how `JSON.stringify` escapes one character inside a string. -/
def escChar (c : Char) : List Char :=
  if c = '"' then ['\\', '"']
  else if c = '\\' then ['\\', '\\']
  else if c = '\n' then ['\\', 'n']
  else if c = '\r' then ['\\', 'r']
  else if c = '\t' then ['\\', 't']
  else if c.toNat < 32 then
    ['\\', 'u', '0', '0', hexDigit (c.toNat / 16), hexDigit (c.toNat % 16)]
  else [c]

/-- Escape every character of a list, concatenating the results. -/
def escapeChars : List Char → List Char
  | [] => []
  | c :: rest => escChar c ++ escapeChars rest

/-- Model of `JSON.stringify` applied to a string value, without the quotes. -/
def jsonEscape (s : String) : String := ⟨escapeChars s.data⟩

/-- Model of `JSON.stringify` applied to a string value, with the quotes. -/
def jsonStringLit (s : String) : String := "\"" ++ jsonEscape s ++ "\""

/-! ### JSON parsing (model of `JSON.parse`) -/

/-- Drop leading JSON whitespace. -/
def skipWS (cs : List Char) : List Char := cs.dropWhile isWS

/-- Unescape one character after a backslash in a JSON string literal. -/
def unescapeChar (c : Char) : Option Char :=
  if c = '"' then some '"'
  else if c = '\\' then some '\\'
  else if c = '/' then some '/'
  else if c = 'n' then some '\n'
  else if c = 't' then some '\t'
  else if c = 'r' then some '\r'
  else none

/-- Parse the body of a JSON string literal after the opening quote,
returning the decoded characters and the remainder after the closing quote. -/
def parseStrBody : List Char → Option (List Char × List Char)
  | [] => none
  | '"' :: rest => some ([], rest)
  | '\\' :: e :: rest =>
    match unescapeChar e with
    | some c =>
      match parseStrBody rest with
      | some (s, r) => some (c :: s, r)
      | none => none
    | none => none
  | c :: rest =>
    match parseStrBody rest with
    | some (s, r) => some (c :: s, r)
    | none => none

/-- Accumulate a run of decimal digits. -/
def digitsAcc : Nat → List Char → Nat × List Char
  | acc, [] => (acc, [])
  | acc, c :: rest =>
    if c.isDigit then digitsAcc (acc * 10 + (c.toNat - 48)) rest
    else (acc, c :: rest)

/-- Parse a nonempty run of decimal digits. -/
def parseNatLit (cs : List Char) : Option (Nat × List Char) :=
  match cs with
  | c :: _ => if c.isDigit then some (digitsAcc 0 cs) else none
  | [] => none

mutual

/-- Fuel-indexed JSON value parser. -/
def parseVal : Nat → List Char → Option (JsonVal × List Char)
  | 0, _ => none
  | f + 1, cs =>
    match skipWS cs with
    | '"' :: rest =>
      match parseStrBody rest with
      | some (l, r) => some (.jstr ⟨l⟩, r)
      | none => none
    | '{' :: rest => parseObjBody f rest
    | '[' :: rest => parseArrBody f rest
    | 'n' :: 'u' :: 'l' :: 'l' :: rest => some (.jnull, rest)
    | 't' :: 'r' :: 'u' :: 'e' :: rest => some (.jbool true, rest)
    | 'f' :: 'a' :: 'l' :: 's' :: 'e' :: rest => some (.jbool false, rest)
    | '-' :: rest =>
      match parseNatLit rest with
      | some (n, r) => some (.jnum (-(n : Int)), r)
      | none => none
    | cs' =>
      match parseNatLit cs' with
      | some (n, r) => some (.jnum (n : Int), r)
      | none => none

/-- Parse the contents of a JSON array after the opening bracket. -/
def parseArrBody : Nat → List Char → Option (JsonVal × List Char)
  | 0, _ => none
  | f + 1, cs =>
    match skipWS cs with
    | ']' :: rest => some (.jarr [], rest)
    | _ =>
      match parseVal f cs with
      | some (v, r) =>
        match parseArrRest f r with
        | some (vs, r2) => some (.jarr (v :: vs), r2)
        | none => none
      | none => none

/-- Parse the remaining elements of a JSON array. -/
def parseArrRest : Nat → List Char → Option (List JsonVal × List Char)
  | 0, _ => none
  | f + 1, cs =>
    match skipWS cs with
    | ']' :: rest => some ([], rest)
    | ',' :: rest =>
      match parseVal f rest with
      | some (v, r) =>
        match parseArrRest f r with
        | some (vs, r2) => some (v :: vs, r2)
        | none => none
      | none => none
    | _ => none

/-- Parse the contents of a JSON object after the opening brace. -/
def parseObjBody : Nat → List Char → Option (JsonVal × List Char)
  | 0, _ => none
  | f + 1, cs =>
    match skipWS cs with
    | '}' :: rest => some (.jobj [], rest)
    | _ =>
      match parseMember f cs with
      | some (kv, r) =>
        match parseObjRest f r with
        | some (kvs, r2) => some (.jobj (kv :: kvs), r2)
        | none => none
      | none => none

/-- Parse the remaining members of a JSON object. -/
def parseObjRest : Nat → List Char → Option (List (String × JsonVal) × List Char)
  | 0, _ => none
  | f + 1, cs =>
    match skipWS cs with
    | '}' :: rest => some ([], rest)
    | ',' :: rest =>
      match parseMember f rest with
      | some (kv, r) =>
        match parseObjRest f r with
        | some (kvs, r2) => some (kv :: kvs, r2)
        | none => none
      | none => none
    | _ => none

/-- Parse one `key: value` member of a JSON object. -/
def parseMember : Nat → List Char → Option ((String × JsonVal) × List Char)
  | 0, _ => none
  | f + 1, cs =>
    match skipWS cs with
    | '"' :: rest =>
      match parseStrBody rest with
      | some (k, r) =>
        match skipWS r with
        | ':' :: r2 =>
          match parseVal f r2 with
          | some (v, r3) => some ((⟨k⟩, v), r3)
          | none => none
        | _ => none
      | none => none
    | _ => none

end

/-- Model of `JSON.parse`: `none` models a thrown `SyntaxError`. -/
def jsonParse (s : String) : Option JsonVal :=
  match parseVal (4 * s.data.length + 8) s.data with
  | some (v, rest) => if (skipWS rest).isEmpty then some v else none
  | none => none

/-- Lookup of a member in a parsed object list. -/
def lookupField : List (String × JsonVal) → String → Option JsonVal
  | [], _ => none
  | (k, v) :: rest, key => if k = key then some v else lookupField rest key

/-- Model of JavaScript property access `v.key`: `none` models `undefined`. -/
def getField : JsonVal → String → Option JsonVal
  | .jobj fields, k => lookupField fields k
  | _, _ => none

/-- Model of JavaScript index access `v[i]`: `none` models `undefined`. -/
def jIndex : JsonVal → Nat → Option JsonVal
  | .jarr xs, i => xs.get? i
  | _, _ => none

/-- JavaScript truthiness of a possibly-`undefined` value. -/
def jTruthy : Option JsonVal → Bool
  | none => false
  | some .jnull => false
  | some (.jbool b) => b
  | some (.jnum n) => n != 0
  | some (.jstr s) => s != ""
  | some (.jarr _) => true
  | some (.jobj _) => true

/-- Model of the JavaScript comparison `v >= k` for the values that occur
here: a number compares numerically, everything else (including
`undefined`) yields false. -/
def jGe : Option JsonVal → Int → Bool
  | some (.jnum n), k => k ≤ n
  | _, _ => false

/-- Model of JavaScript template-literal stringification of a value. -/
def jsOptToString : Option JsonVal → String
  | some (.jnum n) => toString n
  | some (.jstr s) => s
  | some (.jbool true) => "true"
  | some (.jbool false) => "false"
  | some .jnull => "null"
  | some (.jarr _) => ""
  | some (.jobj _) => "[object Object]"
  | none => "undefined"

/-! ## The brace-matching regex

Both LLM-parsing stages of the ReminderTool extract "the first balanced JSON
object" from free text with the JavaScript regex
`/\x7b(?:[^\x7b\x7d]|\x7b[^\x7b\x7d]*\x7d)*\x7d/s` and `String.prototype.match`.
For this particular pattern the backtracking engine is deterministic: at a
given start position the alternatives are distinguished by their first
character and the greedy star can never succeed by stopping early, so the
match is computed directly: from an opening brace, repeatedly consume either
a non-brace character or a complete single-level `brace ... brace` group,
until the closing brace.  `String.prototype.match` returns the match at the
leftmost start position. -/

/-- Consume `[^ brace ]* closing-brace`, returning the consumed characters
(including the closing brace) and the remainder. -/
def flatClose : List Char → Option (List Char × List Char)
  | [] => none
  | '}' :: rest => some (['}'], rest)
  | '{' :: _ => none
  | c :: rest =>
    match flatClose rest with
    | some (inner, r) => some (c :: inner, r)
    | none => none

/-- Fuel-indexed matcher for the body of the regex after the opening brace,
returning the matched characters (including the final closing brace). -/
def matchBody : Nat → List Char → Option (List Char × List Char)
  | 0, _ => none
  | _ + 1, [] => none
  | _ + 1, '}' :: rest => some (['}'], rest)
  | f + 1, '{' :: rest =>
    match flatClose rest with
    | some (inner, r) =>
      match matchBody f r with
      | some (body, r2) => some ('{' :: inner ++ body, r2)
      | none => none
    | none => none
  | f + 1, c :: rest =>
    match matchBody f rest with
    | some (body, r2) => some (c :: body, r2)
    | none => none

/-- Scan for the leftmost successful match of the brace regex. -/
def braceScan : List Char → Option String
  | [] => none
  | '{' :: rest =>
    match matchBody (rest.length + 1) rest with
    | some (body, _) => some ⟨'{' :: body⟩
    | none => braceScan rest
  | _ :: rest => braceScan rest

/-- Model of `text.match(braceRegex)` returning `match[0]`. -/
def firstBraceMatch (s : String) : Option String := braceScan s.data

/-! ## The HTTP layer and streaming orchestrator (src/index.ts)

The Express response object is modelled as an ordered log of response
actions.  `statusJson code body` models `res.status(code).json(...)`, which
sends a single JSON body and ends the response; for the two JSON bodies this
server sends the payload is an object with a single string field `error`
(for the 400 case) or the stringified thrown error (for the 500 case), and
`body` holds that string.  `doneFrame` models `res.write("data: [DONE]\n\n")`
and `endResponse` models `res.end()`. -/

inductive ResAction where
  | setHeader (name value : String)
  | sseFrame (messageType content : String)
  | doneFrame
  | statusJson (status : Nat) (errorBody : String)
  | endResponse
deriving Repr, DecidableEq

/-- The event-type labels of src/index.ts lines 37-40; three of the four
constants share one value. -/
def ASSISTANT_RESPONSE : String := "thread.message.delta"

/-- Label used for thinking-step frames. -/
def THINKING_STEP : String := "thread.run.step.delta"

/-- Label used for tool-call frames (same value as `THINKING_STEP`). -/
def TOOL_CALL : String := "thread.run.step.delta"

/-- Label used for tool-response frames (same value as `THINKING_STEP`). -/
def TOOL_RESPONSE : String := "thread.run.step.delta"

deriving instance DecidableEq for Except

/-- One `update` event from the agent emitter: a string key and value. -/
structure Update where
  key : String
  value : String
deriving Repr, DecidableEq

/-- The frames that the `update` handler of `handleQueryMain` writes for one
event: four independent `if` statements keyed on
thought / tool_name / tool_input / tool_output, each writing one frame via
`sseEvent`. -/
def updateFrames (u : Update) : List ResAction :=
  (if u.key = "thought" then
    [.sseFrame THINKING_STEP ("<h3>Agent is thinking: </h3> <br/>" ++ u.value ++ "\n\n <br/>")]
  else []) ++
  (if u.key = "tool_name" then
    [.sseFrame TOOL_CALL ("<h3>Tool <i>" ++ u.value ++ "</i> is being invoked.</h3> \n\n")]
  else []) ++
  (if u.key = "tool_input" then
    [.sseFrame THINKING_STEP ("<h3>Tool call initialized with input:</h3> \n" ++
      "\n-------------------------------------------\n" ++ "```" ++ u.value ++ "```\n\n" ++
      "\n-------------------------------------------\n")]
  else []) ++
  (if u.key = "tool_output" then
    [.sseFrame TOOL_RESPONSE ("<h3>Tool returned output:</h3> \n" ++
      "\n-------------------------------------------\n" ++ "```" ++ u.value ++ "```\n\n" ++
      "\n-------------------------------------------\n")]
  else [])

/-- The frames of a whole event sequence, in emission order. -/
def flatFrames : List Update → List ResAction
  | [] => []
  | u :: rest => updateFrames u ++ flatFrames rest

/-- One agent run, abstracting the external agent framework: the `update`
events it emits (in order), the messages it appends to the shared
conversation memory during the run, and whether its promise resolves with a
final text or rejects. -/
structure AgentRun where
  updates : List Update
  memWrites : List String
  outcome : Except String String
deriving Repr, DecidableEq

/-- The tool adapters that can be registered on the agent. -/
inductive ToolId where
  | flightCostLookup
  | flightBooking
  | calculator
deriving Repr, DecidableEq

/-- The `execution` limits passed to `agent.run`. -/
structure ExecutionLimits where
  maxRetriesPerStep : Nat
  totalMaxRetries : Nat
  maxIterations : Nat
deriving Repr, DecidableEq

/-- What `handleQueryMain` passes when constructing the `BeeAgent`:
the registered tools, the execution limits, and the content of the shared
memory object at construction time. -/
structure AgentSetup where
  tools : List ToolId
  execution : ExecutionLimits
  memoryAtConstruction : List String
deriving Repr, DecidableEq

/-- The module-level shared state: the single `TokenMemory` instance. -/
structure ServerState where
  memory : List String
deriving Repr, DecidableEq

/-- The system prompt `handleQueryMain` embeds the query in (the template
literal of src/index.ts lines 75-81, then `.trim()`). -/
def systemPromptOf (query : String) : String :=
  trimStr ("\nYou are an agent designed to assist the user to the best of your abilities using the tools you have available.\nCarefully interpret their request and execute the most appropriate actions to help them.\n--------------------------------------------------------\n# User Wants to:\n" ++ query ++ "\n  ")

/-- Result of one `handleQueryMain` invocation. -/
structure HQMResult where
  state : ServerState
  setup : AgentSetup
  prompt : String
  log : List ResAction
  outcome : Except String String
deriving Repr, DecidableEq

/-- Model of `handleQueryMain` (src/index.ts lines 63-144): reset the shared
memory, construct the agent with the three tools and the fixed execution
limits, write one frame per matching `update` event in arrival order, and
resolve with the final text or reject with the run error. -/
def handleQueryMain (query : String) (run : AgentRun) (st : ServerState) : HQMResult :=
  let memoryAfterReset : List String := []
  let setup : AgentSetup :=
    { tools := [.flightCostLookup, .flightBooking, .calculator]
      execution := { maxRetriesPerStep := 3, totalMaxRetries := 10, maxIterations := 20 }
      memoryAtConstruction := memoryAfterReset }
  let log := run.updates.foldl (fun acc u => acc ++ updateFrames u) []
  { state := { memory := memoryAfterReset ++ run.memWrites }
    setup := setup
    prompt := systemPromptOf query
    log := log
    outcome := run.outcome }

/-- The three stream headers both routes set before anything else. -/
def sseHeaders : List ResAction :=
  [.setHeader "Content-Type" "text/event-stream",
   .setHeader "Cache-Control" "no-cache",
   .setHeader "Connection" "keep-alive"]

/-- Result of one HTTP request: the new shared state, the ordered response
log, and the handler promise outcome (`error` models an unhandled
rejection escaping the route handler). -/
structure HttpResult where
  state : ServerState
  log : List ResAction
  handler : Except String Unit
deriving Repr, DecidableEq

/-- Model of the `GET /query` route (src/index.ts lines 146-167).
`q` is the optional `q` query parameter; JavaScript `!userQuery` is true
both for an absent parameter and for the empty string. -/
def getQueryRoute (q : Option String) (run : AgentRun) (st : ServerState) : HttpResult :=
  let userQuery := q.getD ""
  if userQuery = "" then
    { state := st
      log := sseHeaders ++ [.statusJson 400 "Missing query parameter \"q\""]
      handler := .ok () }
  else
    let r := handleQueryMain userQuery run st
    match r.outcome with
    | .ok result =>
      { state := r.state
        log := sseHeaders ++ r.log ++
          [.sseFrame ASSISTANT_RESPONSE result, .doneFrame, .endResponse]
        handler := .ok () }
    | .error e =>
      { state := r.state
        log := sseHeaders ++ r.log ++ [.statusJson 500 e]
        handler := .ok () }

/-- One chat message of the `POST /` body. -/
structure ChatMessage where
  role : String
  content : String
deriving Repr, DecidableEq

/-- The spec-side description of the flattened context: all messages in
order, one `role: content` line each. -/
def flattenMessages : List ChatMessage → String
  | [] => ""
  | m :: rest => m.role ++ ": " ++ m.content ++ "\n" ++ flattenMessages rest

/-- Result of one `POST /` request, additionally recording the query string
forwarded to `handleQueryMain`. -/
structure PostResult where
  state : ServerState
  log : List ResAction
  forwardedQuery : String
  handler : Except String Unit
deriving Repr, DecidableEq

/-- Model of the `POST /` route (src/index.ts lines 169-191): flatten all
messages with `reduce`, set the stream headers, run the orchestrator and, on
success, write the final frame, the `[DONE]` sentinel and end the response.
The route has no try/catch: a rejected run makes the handler promise reject
with nothing further written. -/
def postRootRoute (messages : List ChatMessage) (run : AgentRun) (st : ServerState) :
    PostResult :=
  let context := messages.foldl
    (fun acc cur => acc ++ cur.role ++ ": " ++ cur.content ++ "\n") ""
  let r := handleQueryMain context run st
  match r.outcome with
  | .ok result =>
    { state := r.state
      log := sseHeaders ++ r.log ++
        [.sseFrame ASSISTANT_RESPONSE ("<h2> Final Response: </h2> <br/>" ++ result),
         .doneFrame, .endResponse]
      forwardedQuery := context
      handler := .ok () }
  | .error e =>
    { state := r.state
      log := sseHeaders ++ r.log
      forwardedQuery := context
      handler := .error e }

/-! ### The wire form of one SSE frame

`sseEvent` writes `data: S\n\n` where `S` is `JSON.stringify` of an envelope
object; `id` is the sliced uuid without its `run-` marker, `tid` the
generated thread uuid and `created` the Unix timestamp — all three
nondeterministic, so they are parameters here.  Field order matches the
object literal in the source. -/

def frameEnvelope (id tid : String) (created : Nat) (messageType content : String) :
    String :=
  "\x7b\"id\":" ++ jsonStringLit ("run-" ++ id) ++
  ",\"object\":" ++ jsonStringLit messageType ++
  ",\"thread_id\":" ++ jsonStringLit tid ++
  ",\"model\":\"crewai-example\",\"created\":" ++ Nat.repr created ++
  ",\"choices\":[\x7b\"delta\":\x7b\"role\":\"assistant\",\"content\":" ++
  jsonStringLit content ++ "\x7d\x7d]\x7d"

/-- The bytes `res.write` receives for one frame. -/
def renderSseFrame (id tid : String) (created : Nat) (messageType content : String) :
    String :=
  "data: " ++ frameEnvelope id tid created messageType content ++ "\n\n"

/-- The bytes of the terminal sentinel write. -/
def doneWire : String := "data: [DONE]\n\n"

/-- Response-log actions that form the streamed body (frames and the
sentinel), as opposed to headers and `end`. -/
def isBodyWrite : ResAction → Bool
  | .sseFrame _ _ => true
  | .doneFrame => true
  | .statusJson _ _ => true
  | _ => false

/-- Stream writes: SSE frames and the sentinel. -/
def isStreamWrite : ResAction → Bool
  | .sseFrame _ _ => true
  | .doneFrame => true
  | _ => false

/-- The `[DONE]` sentinel write. -/
def isDoneWrite : ResAction → Bool
  | .doneFrame => true
  | _ => false

/-- A synchronous JSON error response. -/
def isJsonErrorWrite : ResAction → Bool
  | .statusJson _ _ => true
  | _ => false

/-! ## FlightCostLookupTool (src/Tools/FlightCostLookupTool.ts) -/

/-- Tool-level errors: the framework class `ToolInputValidationError`, versus
a raw exception / unhandled rejection that is not one of the framework
error classes. -/
inductive ToolError where
  | inputValidation (msg : String)
  | raw (msg : String)
deriving Repr, DecidableEq

/-- The validated input schema of the flight-cost lookup.  The numeric
fields are `z.number()`; they occur here only stringified into the URL and
are modelled as integers. -/
structure FlightInput where
  departure_airport_code : String
  arrival_airport_code : String
  departure_date : String
  number_of_adults : Int
  number_of_children : Int
  number_of_infants : Int
  cabin_class : Int
deriving Repr, DecidableEq

/-- The fixed external pricing endpoint. -/
def flightBaseURL : String :=
  "https://backend-lm-agent-lm-agent.pubfed4-ocp-7e584e106e8632fde4ff5d99d5f27ba6-0000.us-south.containers.appdomain.cloud/cost"

/-- Model of `Array.prototype.join("/")` on a nonempty list of already
stringified segments. -/
def joinSlash : List String → String
  | [] => ""
  | [s] => s
  | s :: rest => s ++ "/" ++ joinSlash rest

/-- The URL built by `FlightCostLookupTool._run`. -/
def flightApiURL (input : FlightInput) : String :=
  let currency := "USD"
  joinSlash
    [flightBaseURL,
     input.departure_airport_code,
     input.arrival_airport_code,
     input.departure_date,
     toString input.number_of_adults,
     toString input.number_of_children,
     toString input.number_of_infants,
     toString input.cabin_class,
     currency]

/-- Result of one `FlightCostLookupTool._run`: the outbound GET requests
issued (by URL, in order) and the tool output or error. -/
structure FlightRunResult where
  requests : List String
  output : Except ToolError JsonVal
deriving Repr

/-- Model of `FlightCostLookupTool._run`: build the URL, issue exactly one
`axios.get`, and wrap any rejection of that call in a
`ToolInputValidationError` with a fixed message.  `fetchOutcome` abstracts
the external HTTP call: `ok` carries the parsed response data, `error` any
rejection (network failure or non-2xx status). -/
def flightCostLookupRun (input : FlightInput) (fetchOutcome : Except String JsonVal) :
    FlightRunResult :=
  let apiURL := flightApiURL input
  match fetchOutcome with
  | .ok data => { requests := [apiURL], output := .ok data }
  | .error _ =>
    { requests := [apiURL],
      output := .error (.inputValidation "Invalid input or data fetch failed.") }

/-! ## ReminderTool (natural-language to SQL pipeline)

The four LLM calls of `_run`/`generateQuery` are abstracted by an oracle
holding the raw text each call returns; the sqlite database holding the
`reminders` table is abstracted by its row count, and executing a statement
is interpreted on that count (INSERT adds one row, DELETE removes at most
one, UPDATE/SELECT leave the count unchanged, anything else is a sqlite
error).  `this.query` serializes the returned rows with `JSON.stringify`;
for the one query whose result the code re-parses (`SELECT COUNT(*)`) the
serialization is produced exactly. -/

/-- The capacity ceiling `ReminderTool.maxReminders`. -/
def maxReminders : Nat := 10

/-- The count query issued by the capacity check. -/
def countQuerySql : String := "SELECT COUNT(*) as total FROM reminders;"

/-- The full-table read used to build the validation context. -/
def selectAllSql : String := "SELECT * FROM reminders;"

/-- The fixed output for an empty instruction. -/
def noInputMsg : String := "⚠️ No input was found, nothing was done."

/-- The fixed warning returned when the capacity check rejects an add. -/
def tooManyMsg : String :=
  "⚠️ You have too many reminders... As per the limit you set, try to complete other tasks first!"

/-- Message of the modelled `SyntaxError` thrown by `JSON.parse`. -/
def jsonSyntaxErrMsg : String := "SyntaxError: JSON.parse failed"

/-- Message of the modelled `TypeError` from reading a property of
`undefined`. -/
def undefinedReadErrMsg : String := "TypeError: cannot read properties of undefined"

/-- Model of the sqlite3 collaborator executing one statement against the
store (the row count of the `reminders` table), returning the new count and
the `JSON.stringify` serialization of the returned rows. -/
def execSql (store : Nat) (q : String) : Except String (Nat × String) :=
  if q = countQuerySql then
    .ok (store, "[\x7b\"total\": " ++ toString store ++ "\x7d]")
  else if q = selectAllSql then
    .ok (store, "[]")
  else if strStartsWith (lowerStr (trimStr q)) "insert" then
    .ok (store + 1, "[]")
  else if strStartsWith (lowerStr (trimStr q)) "delete" then
    .ok (store - 1, "[]")
  else if strStartsWith (lowerStr (trimStr q)) "update" then
    .ok (store, "[]")
  else if strStartsWith (lowerStr (trimStr q)) "select" then
    .ok (store, "[]")
  else
    .error ("SQLITE_ERROR: near \"" ++ q ++ "\": syntax error")

/-- Model of `ReminderTool.query`: a sqlite error is rejected as a
`ToolInputValidationError` carrying the sqlite message. -/
def dbQuery (store : Nat) (q : String) : Except ToolError (Nat × String) :=
  match execSql store q with
  | .ok r => .ok r
  | .error m => .error (.inputValidation m)

/-- The raw text returned by each of the four LLM calls of one
`ReminderTool._run` invocation, in call order. -/
structure ReminderOracle where
  structuredTaskOut : String
  validationOut : String
  generateOut : String
  finalOut : String
deriving Repr, DecidableEq

/-- Observable result of one `ReminderTool._run` invocation: the reminder
count afterwards, the SQL statements issued (in order), the number of LLM
calls made, and the tool output (`ok` a returned string, `error` a thrown
error). -/
structure RunResult where
  store : Nat
  dbQueries : List String
  llmCalls : Nat
  output : Except ToolError String
deriving Repr, DecidableEq

/-- The keyword gate of the capacity check:
`naturalLanguageTask.toLowerCase().includes("add")`. -/
def hasAddKeyword (s : String) : Bool := strContains (lowerStr s) "add"

/-- The pipeline after the capacity gate (src/index.ts lines 274-374 of the
tool source): classification call, full-table read, validation call,
brace-regex JSON extraction of the validated id, SQL generation call with
brace-regex JSON extraction, execution of the generated statement, and the
final confirmation call.  Values that flow only into LLM prompts
(`dbContext`, `structuredTask` in the prompts, `taskDescription`,
`sqlResult`) are bound for fidelity with the source but otherwise unused,
because the oracle abstracts those calls. -/
def reminderPipeline (o : ReminderOracle) (naturalLanguageTask : String) (store : Nat)
    (dbq : List String) (llm : Nat) : RunResult :=
  let llm := llm + 1
  match dbQuery store selectAllSql with
  | .error e => ⟨store, dbq ++ [selectAllSql], llm, .error e⟩
  | .ok (store, currentDB) =>
    let dbq := dbq ++ [selectAllSql]
    let dbContext := "\n------------------------------------------------------\n" ++
      currentDB ++ "\n------------------------------------------------------\n"
    let structuredTask := trimStr o.structuredTaskOut
    let llm := llm + 1
    let extracted := (firstBraceMatch (trimStr o.validationOut)).getD ""
    match jsonParse extracted with
    | none => ⟨store, dbq, llm, .error (.raw jsonSyntaxErrMsg)⟩
    | some parsed =>
      let validId := getField parsed "validId"
      let taskDescription :=
        if jTruthy validId then
          structuredTask ++ " (Validated Target ID: " ++ jsOptToString validId ++ ")"
        else structuredTask
      let llm := llm + 1
      let extracted2 := (firstBraceMatch o.generateOut).getD ""
      match jsonParse extracted2 with
      | none => ⟨store, dbq, llm, .error (.raw jsonSyntaxErrMsg)⟩
      | some gen =>
        let genQuery :=
          match getField gen "query" with
          | some (.jstr s) => s
          | _ => "undefined"
        match dbQuery store genQuery with
        | .error e => ⟨store, dbq ++ [genQuery], llm, .error e⟩
        | .ok (store, sqlResult) =>
          let llm := llm + 1
          ⟨store, dbq ++ [genQuery], llm, .ok (trimStr o.finalOut)⟩

/-- Model of `ReminderTool._run`: empty-input early return, the
keyword-gated capacity check (`count >= maxReminders` rejected with the
fixed warning before any further work), then the LLM/SQL pipeline. -/
def reminderRun (o : ReminderOracle) (naturalLanguageInput : String) (store : Nat) :
    RunResult :=
  let naturalLanguageTask := naturalLanguageInput
  if naturalLanguageTask = "" then
    ⟨store, [], 0, .ok noInputMsg⟩
  else if hasAddKeyword naturalLanguageTask then
    match dbQuery store countQuerySql with
    | .error e => ⟨store, [countQuerySql], 0, .error e⟩
    | .ok (store1, total) =>
      match jsonParse total with
      | none => ⟨store1, [countQuerySql], 0, .error (.raw jsonSyntaxErrMsg)⟩
      | some parsed =>
        match jIndex parsed 0 with
        | none => ⟨store1, [countQuerySql], 0, .error (.raw undefinedReadErrMsg)⟩
        | some row =>
          let totalReminders := getField row "total"
          if jGe totalReminders (maxReminders : Int) then
            ⟨store1, [countQuerySql], 0, .ok tooManyMsg⟩
          else
            reminderPipeline o naturalLanguageTask store1 [countQuerySql] 0
  else
    reminderPipeline o naturalLanguageTask store [] 0

/-- The reminder count after a sequence of sequential `_run` invocations. -/
def reminderRunSeq : List (ReminderOracle × String) → Nat → Nat
  | [], store => store
  | p :: rest, store => reminderRunSeq rest (reminderRun p.1 p.2 store).store

/-! ## Concrete fixtures used by the closed theorems below -/

/-- A successful two-event agent run. -/
def c1SampleRun : AgentRun :=
  { updates := [⟨"thought", "I should look up the flight"⟩,
                ⟨"tool_name", "FlightCostLookup"⟩]
    memWrites := []
    outcome := .ok "Here is your flight." }

/-- A run that is never reached (the request is rejected first). -/
def c3SampleRun : AgentRun :=
  { updates := [], memWrites := [], outcome := .ok "unused" }

/-- An agent run whose promise rejects after one emitted event. -/
def c4FailingRun : AgentRun :=
  { updates := [⟨"thought", "planning the booking"⟩]
    memWrites := []
    outcome := .error "Error: model backend unreachable" }

/-- A well-formed flight lookup input. -/
def flightSampleInput : FlightInput :=
  { departure_airport_code := "JFK"
    arrival_airport_code := "LAX"
    departure_date := "2026-11-01"
    number_of_adults := 2
    number_of_children := 1
    number_of_infants := 0
    cabin_class := 1 }

/-- The INSERT statement produced by the SQL-generation output of
`capacityBypassOracle`. -/
def insertGeneratedSql : String :=
  "INSERT INTO reminders (name, created_date, original_due_date, active_due_date, priority, description) VALUES (?, ?, ?, ?, ?, ?);"

/-- Plausible LLM outputs for the instruction `remind me to water the
plants`: the instruction never contains the substring `add`, the validator
finds no target id, and the generator emits an INSERT statement. -/
def capacityBypassOracle : ReminderOracle :=
  { structuredTaskOut := "1. Add a Reminder: create a reminder to water the plants"
    validationOut := "\x7b\"validId\": null, \"notes\": \"\"\x7d"
    generateOut := "\x7b\"query\": \"INSERT INTO reminders (name, created_date, original_due_date, active_due_date, priority, description) VALUES (?, ?, ?, ?, ?, ?);\", \"params\": [\"water the plants\", \"2026-10-11\", \"2026-10-12\", \"2026-10-12\", \"2\", \"\"]\x7d"
    finalOut := "Done! I added a reminder to water the plants." }

/-- Oracle for a rejected add: its content is irrelevant because the
capacity check rejects before any LLM call. -/
def capacitySeqOracle : ReminderOracle :=
  { structuredTaskOut := "", validationOut := "", generateOut := "", finalOut := "" }

/-- Validator output with no JSON object at all. -/
def rawParseOracle : ReminderOracle :=
  { structuredTaskOut := "2. Delete a Reminder: delete the milk reminder"
    validationOut := "I could not find a matching reminder id."
    generateOut := ""
    finalOut := "" }

/-- Validator output with no JSON object (witness fixture). -/
def noJsonValidationOracle : ReminderOracle :=
  { structuredTaskOut := "2. Delete a Reminder: remove entry 4"
    validationOut := "no json object here"
    generateOut := ""
    finalOut := "" }

/-- Validator output parses, but the SQL-generation output has no JSON. -/
def genFailOracle : ReminderOracle :=
  { structuredTaskOut := "3. Snooze a Reminder: snooze entry 2"
    validationOut := "\x7b\"validId\": null\x7d"
    generateOut := "the model returned prose instead of JSON"
    finalOut := "" }

/-! ## Helper lemmas about the streaming log -/

theorem foldl_updateFrames (us : List Update) (acc : List ResAction) :
    us.foldl (fun a u => a ++ updateFrames u) acc = acc ++ flatFrames us := by
  induction us generalizing acc with
  | nil => simp [flatFrames]
  | cons u rest ih => simp [flatFrames, ih, List.append_assoc]

theorem hqm_log (q : String) (run : AgentRun) (st : ServerState) :
    (handleQueryMain q run st).log = flatFrames run.updates := by
  simp [handleQueryMain, foldl_updateFrames]

theorem mem_ite_frame {a x : ResAction} {p : Prop} [Decidable p]
    (h : a ∈ if p then [x] else ([] : List ResAction)) : a = x := by
  split at h
  · simpa using h
  · simp at h

theorem mem_updateFrames {a : ResAction} {u : Update} (h : a ∈ updateFrames u) :
    ∃ mt c, a = ResAction.sseFrame mt c := by
  unfold updateFrames at h
  simp only [List.mem_append] at h
  rcases h with ((h | h) | h) | h
  · exact ⟨_, _, mem_ite_frame h⟩
  · exact ⟨_, _, mem_ite_frame h⟩
  · exact ⟨_, _, mem_ite_frame h⟩
  · exact ⟨_, _, mem_ite_frame h⟩

theorem flatFrames_sse {a : ResAction} :
    ∀ {us : List Update}, a ∈ flatFrames us → ∃ mt c, a = ResAction.sseFrame mt c := by
  intro us
  induction us with
  | nil => intro h; simp [flatFrames] at h
  | cons u rest ih =>
    intro h
    rcases List.mem_append.mp (by simpa [flatFrames] using h) with h | h
    · exact mem_updateFrames h
    · exact ih h

theorem flatFrames_countP_done (us : List Update) :
    (flatFrames us).countP isDoneWrite = 0 := by
  rw [List.countP_eq_zero]
  intro a ha
  obtain ⟨mt, c, rfl⟩ := flatFrames_sse ha
  simp [isDoneWrite]

theorem flatFrames_countP_jsonError (us : List Update) :
    (flatFrames us).countP isJsonErrorWrite = 0 := by
  rw [List.countP_eq_zero]
  intro a ha
  obtain ⟨mt, c, rfl⟩ := flatFrames_sse ha
  simp [isJsonErrorWrite]

theorem flatFrames_filter_body (us : List Update) :
    (flatFrames us).filter isBodyWrite = flatFrames us := by
  rw [List.filter_eq_self]
  intro a ha
  obtain ⟨mt, c, rfl⟩ := flatFrames_sse ha
  simp [isBodyWrite]

theorem endResponse_not_mem_flatFrames (us : List Update) :
    ResAction.endResponse ∉ flatFrames us := by
  intro h
  obtain ⟨mt, c, hh⟩ := flatFrames_sse h
  simp at hh

theorem doneFrame_not_mem_flatFrames (us : List Update) :
    ResAction.doneFrame ∉ flatFrames us := by
  intro h
  obtain ⟨mt, c, hh⟩ := flatFrames_sse h
  simp at hh

theorem getQuery_log_ok (s t : String) (run : AgentRun) (st : ServerState)
    (hs : s ≠ "") (hok : run.outcome = .ok t) :
    (getQueryRoute (some s) run st).log
      = sseHeaders ++ flatFrames run.updates ++
        [ResAction.sseFrame ASSISTANT_RESPONSE t, ResAction.doneFrame,
         ResAction.endResponse] := by
  have h2 : (handleQueryMain s run st).outcome = Except.ok t := hok
  simp only [getQueryRoute, Option.getD_some]
  rw [if_neg hs, h2]
  rw [hqm_log]

theorem getQuery_log_error (s e : String) (run : AgentRun) (st : ServerState)
    (hs : s ≠ "") (herr : run.outcome = .error e) :
    (getQueryRoute (some s) run st).log
      = sseHeaders ++ flatFrames run.updates ++ [ResAction.statusJson 500 e] := by
  have h2 : (handleQueryMain s run st).outcome = Except.error e := herr
  simp only [getQueryRoute, Option.getD_some]
  rw [if_neg hs, h2]
  rw [hqm_log]

/-! ## No raw newline survives JSON string escaping -/

theorem hexDigit_lt_ne_nl : ∀ k < 16, hexDigit k ≠ '\n' := by decide

theorem nl_not_mem_escChar (c : Char) : '\n' ∉ escChar c := by
  unfold escChar
  split_ifs with h1 h2 h3 h4 h5 h6
  · decide
  · decide
  · decide
  · decide
  · decide
  · intro hmem
    simp only [List.mem_cons, List.not_mem_nil, or_false] at hmem
    rcases hmem with h | h | h | h | h | h
    · exact absurd h (by decide)
    · exact absurd h (by decide)
    · exact absurd h (by decide)
    · exact absurd h (by decide)
    · exact hexDigit_lt_ne_nl (c.toNat / 16) (by omega) h.symm
    · exact hexDigit_lt_ne_nl (c.toNat % 16) (by omega) h.symm
  · intro hmem
    rcases List.mem_cons.mp hmem with h | h
    · rw [← h] at h6
      exact h6 (by decide)
    · simp at h

theorem nl_not_mem_escapeChars : ∀ l : List Char, '\n' ∉ escapeChars l := by
  intro l
  induction l with
  | nil => simp [escapeChars]
  | cons c rest ih =>
    intro h
    rcases List.mem_append.mp (by simpa [escapeChars] using h) with h | h
    · exact nl_not_mem_escChar c h
    · exact ih h

theorem nl_not_mem_jsonEscape (s : String) : '\n' ∉ (jsonEscape s).data :=
  nl_not_mem_escapeChars s.data

theorem nl_append {a b : String} (ha : '\n' ∉ a.data) (hb : '\n' ∉ b.data) :
    '\n' ∉ (a ++ b).data := by
  rw [String.data_append]
  intro h
  rcases List.mem_append.mp h with h | h
  exacts [ha h, hb h]

theorem nl_not_mem_jsonStringLit (s : String) : '\n' ∉ (jsonStringLit s).data := by
  unfold jsonStringLit
  exact nl_append (nl_append (by decide) (nl_not_mem_jsonEscape s)) (by decide)

theorem digitChar_ne_nl (n : Nat) : Nat.digitChar n ≠ '\n' := by
  rcases Nat.lt_or_ge n 16 with h | h
  · interval_cases n <;> decide
  · have hstar : Nat.digitChar n = '*' := by
      unfold Nat.digitChar
      repeat rw [if_neg (by omega)]
    rw [hstar]
    decide

theorem toDigitsCore_nl (b : Nat) :
    ∀ (f n : Nat) (acc : List Char), '\n' ∉ acc → '\n' ∉ Nat.toDigitsCore b f n acc := by
  intro f
  induction f with
  | zero =>
    intro n acc h
    simpa [Nat.toDigitsCore] using h
  | succ f ih =>
    intro n acc h
    simp only [Nat.toDigitsCore]
    split
    · intro hmem
      rcases List.mem_cons.mp hmem with h1 | h1
      · exact digitChar_ne_nl _ h1.symm
      · exact h h1
    · refine ih _ _ ?_
      intro hmem
      rcases List.mem_cons.mp hmem with h1 | h1
      · exact digitChar_ne_nl _ h1.symm
      · exact h h1

theorem nl_not_mem_natRepr (n : Nat) : '\n' ∉ (Nat.repr n).data := by
  have hd : (Nat.repr n).data = Nat.toDigitsCore 10 (n + 1) n [] := rfl
  rw [hd]
  exact toDigitsCore_nl 10 (n + 1) n [] (by simp)

theorem nl_not_mem_frameEnvelope (id tid : String) (created : Nat) (mt c : String) :
    '\n' ∉ (frameEnvelope id tid created mt c).data := by
  unfold frameEnvelope
  repeat' apply nl_append
  all_goals
    first
    | decide
    | exact nl_not_mem_jsonStringLit _
    | exact nl_not_mem_jsonEscape _
    | exact nl_not_mem_escapeChars _
    | exact nl_not_mem_natRepr _

/-! ## Claim theorems: HTTP layer and streaming orchestrator -/

/-- Claim C1: on `GET /query` with a valid (nonempty) `q` whose run
resolves, the body written to the sink is the event-derived frames in exact
event order (no reordering or coalescing), followed by the final-answer
frame and exactly one `[DONE]` sentinel; and every frame is a syntactically
valid SSE frame, `data: ` followed by a single newline-free line and a
blank line, the sentinel being the literal `data: [DONE]`. -/
theorem getQuery_stream_terminated_ordered :
    (∀ (s t : String) (run : AgentRun) (st : ServerState), s ≠ "" →
      run.outcome = .ok t →
      ((getQueryRoute (some s) run st).log.filter isBodyWrite
        = flatFrames run.updates ++
          [ResAction.sseFrame ASSISTANT_RESPONSE t, ResAction.doneFrame])
      ∧ (getQueryRoute (some s) run st).log.countP isDoneWrite = 1)
    ∧ (∀ (id tid : String) (created : Nat) (mt c : String),
        renderSseFrame id tid created mt c
          = "data: " ++ frameEnvelope id tid created mt c ++ "\n\n"
        ∧ '\n' ∉ (frameEnvelope id tid created mt c).data)
    ∧ doneWire = "data: [DONE]\n\n" := by
  refine ⟨?_, ?_, rfl⟩
  · intro s t run st hs hok
    have hlog := getQuery_log_ok s t run st hs hok
    constructor
    · rw [hlog, List.filter_append, List.filter_append, flatFrames_filter_body]
      simp [sseHeaders, isBodyWrite, List.filter]
    · rw [hlog, List.countP_append, List.countP_append, flatFrames_countP_done]
      simp [sseHeaders, isDoneWrite, List.countP_cons, List.countP_nil]
  · intro id tid created mt c
    exact ⟨rfl, nl_not_mem_frameEnvelope id tid created mt c⟩

/-- Witness for C1 at a concrete query, run and rendered frame. -/
theorem getQuery_stream_terminated_ordered_witness :
    ((getQueryRoute (some "find a flight") c1SampleRun ⟨[]⟩).log.filter isBodyWrite
      = flatFrames c1SampleRun.updates ++
        [ResAction.sseFrame ASSISTANT_RESPONSE "Here is your flight.",
         ResAction.doneFrame])
    ∧ (getQueryRoute (some "find a flight") c1SampleRun ⟨[]⟩).log.countP isDoneWrite = 1 :=
  getQuery_stream_terminated_ordered.1 "find a flight" "Here is your flight."
    c1SampleRun ⟨[]⟩ (by decide) rfl

/-- Claim C3: on `GET /query` with `q` absent or empty, the response is a
single 400 JSON error body and no stream write (no SSE frame, no sentinel)
occurs. -/
theorem missing_query_single_400 (q : Option String) (run : AgentRun)
    (st : ServerState) (h : q.getD "" = "") :
    (getQueryRoute q run st).log
      = sseHeaders ++ [ResAction.statusJson 400 "Missing query parameter \"q\""]
    ∧ (getQueryRoute q run st).log.countP isStreamWrite = 0
    ∧ (getQueryRoute q run st).log.countP isJsonErrorWrite = 1 := by
  have hlog : (getQueryRoute q run st).log
      = sseHeaders ++ [ResAction.statusJson 400 "Missing query parameter \"q\""] := by
    simp only [getQueryRoute]
    rw [if_pos h]
  refine ⟨hlog, ?_, ?_⟩ <;> rw [hlog] <;> decide

/-- Witness for C3 with the parameter absent. -/
theorem missing_query_single_400_witness :
    (getQueryRoute none c3SampleRun ⟨[]⟩).log
      = sseHeaders ++ [ResAction.statusJson 400 "Missing query parameter \"q\""]
    ∧ (getQueryRoute none c3SampleRun ⟨[]⟩).log.countP isStreamWrite = 0
    ∧ (getQueryRoute none c3SampleRun ⟨[]⟩).log.countP isJsonErrorWrite = 1 :=
  missing_query_single_400 none c3SampleRun ⟨[]⟩ rfl

/-- Claim C4 counterexample: on `POST /` a rejected run escapes the handler
as an unhandled rejection — no error response is written, no `[DONE]`
sentinel is sent and the response is never ended, so the stream is left
open, contradicting the claim that both routes translate a rejection into a
terminal error response. -/
theorem post_rejection_stream_left_open_cex :
    (postRootRoute [⟨"user", "book me a flight to SFO"⟩] c4FailingRun ⟨[]⟩).handler
      = .error "Error: model backend unreachable"
    ∧ (postRootRoute [⟨"user", "book me a flight to SFO"⟩] c4FailingRun
        ⟨[]⟩).log.countP isJsonErrorWrite = 0
    ∧ ResAction.doneFrame ∉
        (postRootRoute [⟨"user", "book me a flight to SFO"⟩] c4FailingRun ⟨[]⟩).log
    ∧ ResAction.endResponse ∉
        (postRootRoute [⟨"user", "book me a flight to SFO"⟩] c4FailingRun ⟨[]⟩).log := by
  refine ⟨rfl, ?_, ?_, ?_⟩ <;> decide

/-- Claim C4 amended: only `GET /query` translates a rejected run into a
terminal error response (a single 500 JSON body, ending the response); on
`POST /` the rejection is not caught — the handler promise rejects, no error
response and no terminal frame are written, and the stream is left open. -/
theorem rejection_handling_amended :
    (∀ (s : String) (run : AgentRun) (st : ServerState) (e : String),
      s ≠ "" → run.outcome = .error e →
      (getQueryRoute (some s) run st).log
        = sseHeaders ++ flatFrames run.updates ++ [ResAction.statusJson 500 e]
      ∧ (getQueryRoute (some s) run st).handler = .ok ())
    ∧ (∀ (messages : List ChatMessage) (run : AgentRun) (st : ServerState)
        (e : String), run.outcome = .error e →
      (postRootRoute messages run st).handler = .error e
      ∧ (postRootRoute messages run st).log.countP isJsonErrorWrite = 0
      ∧ ResAction.doneFrame ∉ (postRootRoute messages run st).log
      ∧ ResAction.endResponse ∉ (postRootRoute messages run st).log) := by
  constructor
  · intro s run st e hs herr
    refine ⟨getQuery_log_error s e run st hs herr, ?_⟩
    have h2 : (handleQueryMain s run st).outcome = Except.error e := herr
    simp only [getQueryRoute, Option.getD_some]
    rw [if_neg hs, h2]
  · intro messages run st e herr
    have h2 : (handleQueryMain
        (messages.foldl (fun acc cur => acc ++ cur.role ++ ": " ++ cur.content ++ "\n") "")
        run st).outcome = Except.error e := herr
    have hlog : (postRootRoute messages run st).log
        = sseHeaders ++ flatFrames run.updates := by
      simp only [postRootRoute]
      rw [h2, hqm_log]
    have hhandler : (postRootRoute messages run st).handler = .error e := by
      simp only [postRootRoute]
      rw [h2]
    refine ⟨hhandler, ?_, ?_, ?_⟩
    · rw [hlog, List.countP_append, flatFrames_countP_jsonError]
      decide
    · rw [hlog]
      intro hmem
      rcases List.mem_append.mp hmem with hmem | hmem
      · simp [sseHeaders] at hmem
      · exact doneFrame_not_mem_flatFrames run.updates hmem
    · rw [hlog]
      intro hmem
      rcases List.mem_append.mp hmem with hmem | hmem
      · simp [sseHeaders] at hmem
      · exact endResponse_not_mem_flatFrames run.updates hmem

/-- Witness for the amended C4 at concrete requests. -/
theorem rejection_handling_amended_witness :
    ((getQueryRoute (some "book a flight") c4FailingRun ⟨[]⟩).log
        = sseHeaders ++ flatFrames c4FailingRun.updates ++
          [ResAction.statusJson 500 "Error: model backend unreachable"]
      ∧ (getQueryRoute (some "book a flight") c4FailingRun ⟨[]⟩).handler = .ok ())
    ∧ ((postRootRoute [] c4FailingRun ⟨[]⟩).handler
        = .error "Error: model backend unreachable"
      ∧ (postRootRoute [] c4FailingRun ⟨[]⟩).log.countP isJsonErrorWrite = 0
      ∧ ResAction.doneFrame ∉ (postRootRoute [] c4FailingRun ⟨[]⟩).log
      ∧ ResAction.endResponse ∉ (postRootRoute [] c4FailingRun ⟨[]⟩).log) :=
  ⟨rejection_handling_amended.1 "book a flight" c4FailingRun ⟨[]⟩
      "Error: model backend unreachable" (by decide) rfl,
   rejection_handling_amended.2 [] c4FailingRun ⟨[]⟩
      "Error: model backend unreachable" rfl⟩

/-- Claim C7: the shared conversation memory is reset to empty before the
agent instance is constructed, so under sequential requests the second
request agent is constructed with empty memory and the memory after its run
holds only that run writes, independently of the first request. -/
theorem memory_reset_before_construction (st : ServerState) (q1 q2 : String)
    (r1 r2 : AgentRun) :
    (handleQueryMain q2 r2 (handleQueryMain q1 r1 st).state).setup.memoryAtConstruction = []
    ∧ (handleQueryMain q2 r2 (handleQueryMain q1 r1 st).state).state.memory = r2.memWrites
    ∧ (handleQueryMain q1 r1 st).setup.memoryAtConstruction = [] :=
  ⟨rfl, rfl, rfl⟩

/-- Claim C8: every request constructs the agent with exactly the three
tool adapters, and runs it with the fixed execution limits
maxRetriesPerStep 3, totalMaxRetries 10, maxIterations 20. -/
theorem agent_config_fixed (q : String) (run : AgentRun) (st : ServerState) :
    (handleQueryMain q run st).setup.tools
      = [ToolId.flightCostLookup, ToolId.flightBooking, ToolId.calculator]
    ∧ (handleQueryMain q run st).setup.execution
      = { maxRetriesPerStep := 3, totalMaxRetries := 10, maxIterations := 20 } :=
  ⟨rfl, rfl⟩

theorem post_context_foldl (messages : List ChatMessage) (acc : String) :
    messages.foldl (fun acc cur => acc ++ cur.role ++ ": " ++ cur.content ++ "\n") acc
      = acc ++ flattenMessages messages := by
  induction messages generalizing acc with
  | nil => simp [flattenMessages]
  | cons m rest ih =>
    rw [List.foldl_cons, ih]
    simp [flattenMessages, String.append_assoc]

/-- Claim C9: `POST /` forwards the concatenation of all messages in order,
one `role: content` line per message, as the query — not only the last
message. -/
theorem post_forwards_all_messages (messages : List ChatMessage) (run : AgentRun)
    (st : ServerState) :
    (postRootRoute messages run st).forwardedQuery = flattenMessages messages := by
  have hctx := post_context_foldl messages ""
  simp only [postRootRoute]
  split <;> simp_all

/-! ## Helper lemmas about the reminder store -/

theorem dbQuery_selectAll (store : Nat) :
    dbQuery store selectAllSql = .ok (store, "[]") := rfl

theorem dbQuery_count (store : Nat) :
    dbQuery store countQuerySql
      = .ok (store, "[\x7b\"total\": " ++ toString store ++ "\x7d]") := rfl

theorem execSql_ok_store_le {store : Nat} {q : String} {p : Nat × String}
    (h : execSql store q = .ok p) : p.1 ≤ store + 1 := by
  unfold execSql at h
  split_ifs at h <;> cases h <;> simp <;> omega

theorem dbQuery_ok_store_le {store : Nat} {q : String} {p : Nat × String}
    (h : dbQuery store q = .ok p) : p.1 ≤ store + 1 := by
  unfold dbQuery at h
  split at h
  · next r hex =>
    cases h
    exact execSql_ok_store_le hex
  · next m hex => simp at h

theorem reminderPipeline_store_le (o : ReminderOracle) (task : String) (store : Nat)
    (dbq : List String) (llm : Nat) :
    (reminderPipeline o task store dbq llm).store ≤ store + 1 := by
  simp only [reminderPipeline, dbQuery_selectAll]
  split
  · exact Nat.le_succ store
  · split
    · exact Nat.le_succ store
    · split
      · exact Nat.le_succ store
      · next p heq => exact dbQuery_ok_store_le heq

theorem reminderRun_store_le (o : ReminderOracle) (input : String) (store : Nat) :
    (reminderRun o input store).store ≤ store + 1 := by
  simp only [reminderRun]
  split
  · exact Nat.le_succ store
  · split
    · simp only [dbQuery_count]
      split
      · exact Nat.le_succ store
      · split
        · exact Nat.le_succ store
        · split
          · exact Nat.le_succ store
          · exact reminderPipeline_store_le o input store [countQuerySql] 0
    · exact reminderPipeline_store_le o input store [] 0

theorem hasAdd_ne_empty {s : String} (h : hasAddKeyword s = true) : s ≠ "" := by
  intro hs
  subst hs
  exact absurd h (by decide)

theorem reminderRun_at_capacity (o : ReminderOracle) (input : String)
    (h : hasAddKeyword input = true) :
    reminderRun o input 10 = ⟨10, [countQuerySql], 0, .ok tooManyMsg⟩ := by
  have hne : input ≠ "" := hasAdd_ne_empty h
  simp only [reminderRun]
  rw [if_neg hne, if_pos h]
  rfl

theorem reminderRun_add_le_ten (o : ReminderOracle) (input : String) (store : Nat)
    (hadd : hasAddKeyword input = true) (hle : store ≤ 10) :
    (reminderRun o input store).store ≤ 10 := by
  rcases Nat.lt_or_ge store 10 with h | h
  · have hb := reminderRun_store_le o input store
    omega
  · have h10 : store = 10 := by omega
    subst h10
    rw [reminderRun_at_capacity o input hadd]

theorem reminderRunSeq_le_ten (steps : List (ReminderOracle × String)) :
    ∀ store : Nat, store ≤ 10 → (∀ p ∈ steps, hasAddKeyword p.2 = true) →
      reminderRunSeq steps store ≤ 10 := by
  induction steps with
  | nil =>
    intro store h _
    simpa [reminderRunSeq] using h
  | cons p rest ih =>
    intro store h hall
    simp only [reminderRunSeq]
    exact ih _ (reminderRun_add_le_ten p.1 p.2 store (hall p (by simp)) h)
      (fun q hq => hall q (by simp [hq]))

/-! ## Claim theorems: ReminderTool -/

/-- Claim C2 counterexample: at capacity 10, the instruction
`remind me to water the plants` does not contain the substring `add`, so
the capacity check is skipped entirely — no count query is issued — and the
generated INSERT is executed, leaving 11 reminders: the capacity check is
not performed before every insert and the count exceeds 10. -/
theorem reminder_capacity_bypass_cex :
    hasAddKeyword "remind me to water the plants" = false
    ∧ (reminderRun capacityBypassOracle "remind me to water the plants" 10).store = 11
    ∧ (reminderRun capacityBypassOracle "remind me to water the plants" 10).dbQueries
      = [selectAllSql, insertGeneratedSql] := by
  refine ⟨by decide, ?_, ?_⟩ <;> rfl

/-- Claim C2 amended: the capacity invariant holds for instructions that
contain the substring `add` (case-insensitively) — exactly the invocations
on which the code runs its capacity check: starting from at most 10
reminders, any sequence of such sequential adds keeps the count at most 10,
and an add attempted at 10 is rejected with the fixed warning after only
the count query, with no insert executed.  Instructions not containing
`add` bypass the check (see the counterexample). -/
theorem reminder_capacity_amended :
    (∀ (steps : List (ReminderOracle × String)) (store : Nat),
      store ≤ maxReminders → (∀ p ∈ steps, hasAddKeyword p.2 = true) →
      reminderRunSeq steps store ≤ maxReminders)
    ∧ (∀ (o : ReminderOracle) (input : String), hasAddKeyword input = true →
      reminderRun o input 10 = ⟨10, [countQuerySql], 0, .ok tooManyMsg⟩) :=
  ⟨fun steps store h hall => reminderRunSeq_le_ten steps store h hall,
   fun o input h => reminderRun_at_capacity o input h⟩

/-- Witness for the amended C2 at a concrete full store and add request. -/
theorem reminder_capacity_amended_witness :
    reminderRunSeq [(capacitySeqOracle, "add a reminder to buy milk")] 10 ≤ maxReminders
    ∧ reminderRun capacitySeqOracle "add a reminder to buy milk" 10
      = ⟨10, [countQuerySql], 0, .ok tooManyMsg⟩ :=
  ⟨reminder_capacity_amended.1 [(capacitySeqOracle, "add a reminder to buy milk")] 10
      (by decide) (by decide),
   reminder_capacity_amended.2 capacitySeqOracle "add a reminder to buy milk" (by decide)⟩

/-- Claim C5 counterexample: when the validator output contains no balanced
JSON object, `JSON.parse` of the empty extraction throws a raw
`SyntaxError` — an undistinguished exception propagating as an unhandled
rejection, not a distinguished validation or execution error. -/
theorem brace_parse_raw_error_cex :
    (reminderRun rawParseOracle "please delete the milk reminder" 3).output
      = .error (.raw jsonSyntaxErrMsg) := by rfl

/-- Claim C5 amended: in both brace-matching stages, an output with no
balanced JSON object (or whose extraction fails to parse) makes the stage
throw the raw `JSON.parse` syntax error — an undistinguished exception —
rather than a distinguished validation or execution error. -/
theorem brace_parse_raw_error_amended :
    (∀ (o : ReminderOracle) (input : String) (store : Nat),
      input ≠ "" → hasAddKeyword input = false →
      jsonParse ((firstBraceMatch (trimStr o.validationOut)).getD "") = none →
      (reminderRun o input store).output = .error (.raw jsonSyntaxErrMsg))
    ∧ (∀ (o : ReminderOracle) (input : String) (store : Nat) (v : JsonVal),
      input ≠ "" → hasAddKeyword input = false →
      jsonParse ((firstBraceMatch (trimStr o.validationOut)).getD "") = some v →
      jsonParse ((firstBraceMatch o.generateOut).getD "") = none →
      (reminderRun o input store).output = .error (.raw jsonSyntaxErrMsg)) := by
  constructor
  · intro o input store hne hadd hparse
    simp only [reminderRun]
    rw [if_neg hne, if_neg (by simp [hadd])]
    simp only [reminderPipeline, dbQuery_selectAll, hparse]
  · intro o input store v hne hadd hv hg
    simp only [reminderRun]
    rw [if_neg hne, if_neg (by simp [hadd])]
    simp only [reminderPipeline, dbQuery_selectAll, hv, hg]

/-- Witness for the amended C5: one invocation reaching each stage. -/
theorem brace_parse_raw_error_amended_witness :
    (reminderRun noJsonValidationOracle "remove the milk entry" 2).output
      = .error (.raw jsonSyntaxErrMsg)
    ∧ (reminderRun genFailOracle "snooze my dentist entry" 5).output
      = .error (.raw jsonSyntaxErrMsg) :=
  ⟨brace_parse_raw_error_amended.1 noJsonValidationOracle "remove the milk entry" 2
      (by decide) (by decide) rfl,
   brace_parse_raw_error_amended.2 genFailOracle "snooze my dentist entry" 5
      (.jobj [("validId", .jnull)]) (by decide) (by decide) rfl rfl⟩

/-- Claim C10: an empty instruction returns exactly the fixed message, with
no database query, no LLM call, and the store unchanged. -/
theorem reminder_empty_input_noop (o : ReminderOracle) (store : Nat) :
    reminderRun o "" store = ⟨store, [], 0, .ok noInputMsg⟩ := rfl

/-! ## Claim theorem: FlightCostLookupTool -/

/-- Claim C6: every well-formed lookup issues exactly one outbound GET to
the URL whose path holds the seven input parameters in the documented order
followed by the literal `USD`, and any failure of that call surfaces as the
single distinguished `ToolInputValidationError`, never a raw exception. -/
theorem flight_lookup_url_and_error (input : FlightInput)
    (fetchOutcome : Except String JsonVal) :
    (flightCostLookupRun input fetchOutcome).requests = [flightApiURL input]
    ∧ flightApiURL input
      = flightBaseURL ++ "/" ++ input.departure_airport_code ++ "/" ++
        input.arrival_airport_code ++ "/" ++ input.departure_date ++ "/" ++
        toString input.number_of_adults ++ "/" ++
        toString input.number_of_children ++ "/" ++
        toString input.number_of_infants ++ "/" ++
        toString input.cabin_class ++ "/" ++ "USD"
    ∧ (∀ e, fetchOutcome = .error e →
        (flightCostLookupRun input fetchOutcome).output
          = .error (.inputValidation "Invalid input or data fetch failed.")) := by
  refine ⟨?_, ?_, ?_⟩
  · cases fetchOutcome <;> rfl
  · simp [flightApiURL, joinSlash, String.append_assoc]
  · intro e he
    subst he
    rfl

/-- Witness for C6 at a failing concrete call. -/
theorem flight_lookup_witness :
    (flightCostLookupRun flightSampleInput (.error "ECONNREFUSED")).output
      = .error (.inputValidation "Invalid input or data fetch failed.") :=
  (flight_lookup_url_and_error flightSampleInput (.error "ECONNREFUSED")).2.2
    "ECONNREFUSED" rfl
